import Mathlib

/-!
Shallow embedding of the reactor core of `rust-netservices`
(`src/reactor/src/lib.rs` and `src/reactor/src/resources/tcp.rs`).

The `Runtime` event loop, its control-event processing, its shutdown
processing and the error-routing combinator chains are translated into
executable Lean functions over explicit state.  The generic `Resource`,
`IoManager` and `Broker` traits become records of functions; the
`HashMap<R::Id, R>` registry becomes an association list with
HashMap-faithful lookup/insert/remove; crossbeam channels become a value
carrying a connectivity flag (a send succeeds iff a receiver is alive).
Handler invocations are additionally recorded in a trace so that ordering
properties of a loop iteration can be stated.
-/

namespace Reactor

/-- Embeds `IoEv` from `src/reactor/src/lib.rs`: which I/O readiness flags fired. -/
structure IoEv where
  is_readable : Bool
  is_writable : Bool
deriving DecidableEq, Repr

/-- Embeds `IoSrc<S>` from `src/reactor/src/lib.rs`: a ready source with its readiness. -/
structure IoSrc (S : Type) where
  source : S
  io : IoEv
deriving DecidableEq, Repr

/-- Embeds `ControlEvent<R>` from `src/reactor/src/lib.rs`.  Note: in the source the
`SetTimer` variant is literally `SetTimer()` — it carries no duration and no
token. -/
inductive ControlEvent (Ctx Id Cmd : Type) where
  | Connect (context : Ctx)
  | Disconnect (id : Id)
  | SetTimer
  | Send (id : Id) (data : Cmd)
deriving DecidableEq, Repr

/-- The `Resource` trait from `src/reactor/src/lib.rs` as a record of
functions over a resource state type `Res`.  `&mut self` methods returning
`Result<(), Error>` become `Res → Res × Option Err`, with `none` standing
for `Ok(())`.  `Resource::with(context, controller)` becomes a function of
the context alone: the controller argument is channel plumbing whose effect,
if stored, is part of the constructed `Res` value. -/
structure ResourceImpl (Id Ctx Cmd Err Res : Type) where
  withCtx : Ctx → Except Err Res
  id : Res → Id
  io_ready : Res → IoEv → Res × Option Err
  handle_cmd : Res → Cmd → Res × Option Err
  handle_err : Res → Err → Res × Option Err

/-- The `IoManager` trait from `src/reactor/src/lib.rs` as a record of
functions over an io-manager state type `IoSt`.  `register_resource(&R)`
only consumes the resource's handle, which the handle↔id map binds to its
id, so the model keys registration by id.  `has_resource` is the
monitoring test. -/
structure IoManagerImpl (Id Err IoSt : Type) where
  has_resource : IoSt → Id → Bool
  register_resource : IoSt → Id → IoSt × Option Err
  unregister_resource : IoSt → Id → IoSt × Option Err

/-- Association-list model of `HashMap::get`. -/
def hmGet {Id Res : Type} [DecidableEq Id] : List (Id × Res) → Id → Option Res
  | [], _ => none
  | (j, s) :: rest, i => if j = i then some s else hmGet rest i

/-- Association-list model of `HashMap::insert`: replace the entry if the key
is present, otherwise add it. -/
def hmInsert {Id Res : Type} [DecidableEq Id] : List (Id × Res) → Id → Res → List (Id × Res)
  | [], i, r => [(i, r)]
  | (j, s) :: rest, i, r => if j = i then (i, r) :: rest else (j, s) :: hmInsert rest i r

/-- Association-list model of `HashMap::remove` (HashMap keys are unique, so
dropping every pair with the key is the same operation). -/
def hmRemove {Id Res : Type} [DecidableEq Id] : List (Id × Res) → Id → List (Id × Res)
  | [], _ => []
  | (j, s) :: rest, i => if j = i then hmRemove rest i else (j, s) :: hmRemove rest i

/-- Write-back of a mutation made through `HashMap::get_mut`: the value bound
to the key changes, the key set does not. -/
def hmUpdate {Id Res : Type} [DecidableEq Id] : List (Id × Res) → Id → Res → List (Id × Res)
  | [], _, _ => []
  | (j, s) :: rest, i, r =>
    if j = i then (j, r) :: hmUpdate rest i r else (j, s) :: hmUpdate rest i r

/-- One handler invocation made by the `Runtime`, recorded for ordering
statements about a loop iteration. -/
inductive TraceEv (Id : Type) where
  | io_ready (id : Id) (ev : IoEv)
  | handle_cmd (id : Id)
  | handle_err
  | broker
deriving DecidableEq, Repr

/-- The mutable state of `Runtime` from `src/reactor/src/lib.rs`: the
resource registry, the io manager state, the broker (modelled as the list of
errors it has been handed, in order) and the `TimeoutManager<()>` (modelled
as its list of registered deadlines; its token type in the source is `()`). -/
structure RuntimeState (Id Res IoSt Err : Type) where
  resources : List (Id × Res)
  io : IoSt
  brokerLog : List Err
  timeouts : List Nat
deriving DecidableEq, Repr

variable {Id Ctx Cmd Err Res IoSt : Type}

/-- The combinator chain
`.or_else(|err| res.handle_err(err)).unwrap_or_else(|err| broker.handle_err(err))`
applied to the result of a fallible resource call, as it appears in
`Runtime::run`, in the `Connect` arm and in the `Send` arm of
`Runtime::process_control`.  Returns the resource after any `handle_err`
call, the broker log after any escalation, and the trace of calls made. -/
def route_err (R : ResourceImpl Id Ctx Cmd Err Res) (res : Res) (r : Option Err)
    (log : List Err) : Res × List Err × List (TraceEv Id) :=
  match r with
  | none => (res, log, [])
  | some err =>
    let p := R.handle_err res err
    match p.2 with
    | none => (p.1, log, [TraceEv.handle_err])
    | some e2 => (p.1, log ++ [e2], [TraceEv.handle_err, TraceEv.broker])

/-- One step of phase 2 of `Runtime::run`: deliver one readiness event.
`self.resources.get_mut(&ev.source).expect("resource management inconsistency")`
panics when the id is absent; the panic is modelled as `none`. -/
def dispatch_io [DecidableEq Id] (R : ResourceImpl Id Ctx Cmd Err Res)
    (st : RuntimeState Id Res IoSt Err) (src : IoSrc Id) :
    Option (RuntimeState Id Res IoSt Err × List (TraceEv Id)) :=
  match hmGet st.resources src.source with
  | none => none
  | some res =>
    let p := R.io_ready res src.io
    let q := route_err R p.1 p.2 st.brokerLog
    some ({ st with resources := hmUpdate st.resources src.source q.1,
                    brokerLog := q.2.1 },
          TraceEv.io_ready src.source src.io :: q.2.2)

/-- Phase 2 of `Runtime::run`: drain the `IoManager` iterator (modelled as
the list of `IoSrc` values it yields this iteration), delivering each to its
resource. -/
def io_phase [DecidableEq Id] (R : ResourceImpl Id Ctx Cmd Err Res)
    (st : RuntimeState Id Res IoSt Err) :
    List (IoSrc Id) → Option (RuntimeState Id Res IoSt Err × List (TraceEv Id))
  | [] => some (st, [])
  | src :: rest =>
    match dispatch_io R st src with
    | none => none
    | some (st1, tr1) =>
      match io_phase R st1 rest with
      | none => none
      | some (st2, tr2) => some (st2, tr1 ++ tr2)

/-- One arm of the `match event` in `Runtime::process_control`, processing a
single drained control event. -/
def process_event [DecidableEq Id] (R : ResourceImpl Id Ctx Cmd Err Res)
    (M : IoManagerImpl Id Err IoSt) (st : RuntimeState Id Res IoSt Err) :
    ControlEvent Ctx Id Cmd → RuntimeState Id Res IoSt Err × List (TraceEv Id)
  | ControlEvent.Connect context =>
    match R.withCtx context with
    | Except.error err =>
      ({ st with brokerLog := st.brokerLog ++ [err] }, [TraceEv.broker])
    | Except.ok resource =>
      let p := M.register_resource st.io (R.id resource)
      let q := route_err R resource p.2 st.brokerLog
      ({ st with io := p.1,
                 brokerLog := q.2.1,
                 resources := hmInsert st.resources (R.id q.1) q.1 },
       q.2.2)
  | ControlEvent.Disconnect i =>
    let p := M.unregister_resource st.io i
    match p.2 with
    | none =>
      ({ st with io := p.1, resources := hmRemove st.resources i }, [])
    | some err =>
      ({ st with io := p.1,
                 brokerLog := st.brokerLog ++ [err],
                 resources := hmRemove st.resources i },
       [TraceEv.broker])
  | ControlEvent.SetTimer =>
    -- source: `ControlEvent::SetTimer() => { // TODO: Add timeout manager }`
    (st, [])
  | ControlEvent.Send i data =>
    match hmGet st.resources i with
    | none => (st, [])
    | some resource =>
      let p := R.handle_cmd resource data
      let q := route_err R p.1 p.2 st.brokerLog
      ({ st with resources := hmUpdate st.resources i q.1, brokerLog := q.2.1 },
       TraceEv.handle_cmd i :: q.2.2)

/-- Embeds `Runtime::process_control`: drain the control channel (modelled as the
list of events received this iteration), processing the events in order. -/
def process_control [DecidableEq Id] (R : ResourceImpl Id Ctx Cmd Err Res)
    (M : IoManagerImpl Id Err IoSt) (st : RuntimeState Id Res IoSt Err) :
    List (ControlEvent Ctx Id Cmd) → RuntimeState Id Res IoSt Err × List (TraceEv Id)
  | [] => (st, [])
  | ev :: rest =>
    match process_event R M st ev with
    | (st1, tr1) =>
      match process_control R M st1 rest with
      | (st2, tr2) => (st2, tr1 ++ tr2)

/-- Outcome of `chan::Receiver::try_recv` on the shutdown channel `Receiver<()>`. -/
inductive TryRecvUnit where
  | ok
  | empty
  | disconnected
deriving DecidableEq, Repr

/-- Embeds `Runtime::process_shutdown`: the `Ok(())` arm of the source is literally
`// TODO: Disconnect all resources` — it does nothing; the `Disconnected`
arm panics (modelled as `none`); `Empty` does nothing.  No arm terminates
the loop (`Runtime::run` has return type `!`). -/
def process_shutdown (st : RuntimeState Id Res IoSt Err) :
    TryRecvUnit → Option (RuntimeState Id Res IoSt Err)
  | TryRecvUnit.empty => some st
  | TryRecvUnit.ok => some st
  | TryRecvUnit.disconnected => none

/-- One iteration of the `loop` in `Runtime::run`: a failed
`io.io_events(..)` is reported to the broker and the iteration proceeds;
then phase 2 drains readiness, then `process_control`, then
`process_shutdown`.  `none` models a panic. -/
def run_iteration [DecidableEq Id] (R : ResourceImpl Id Ctx Cmd Err Res)
    (M : IoManagerImpl Id Err IoSt) (st : RuntimeState Id Res IoSt Err)
    (ioErr : Option Err) (ioEvs : List (IoSrc Id)) (ctlEvs : List (ControlEvent Ctx Id Cmd))
    (sh : TryRecvUnit) : Option (RuntimeState Id Res IoSt Err × List (TraceEv Id)) :=
  let p0 := match ioErr with
    | none => (st, ([] : List (TraceEv Id)))
    | some err => ({ st with brokerLog := st.brokerLog ++ [err] }, [TraceEv.broker])
  match io_phase R p0.1 ioEvs with
  | none => none
  | some (st1, tr1) =>
    let p2 := process_control R M st1 ctlEvs
    match process_shutdown p2.1 sh with
    | none => none
    | some st3 => some (st3, p0.2 ++ tr1 ++ p2.2)

/-- Embeds `InternalError` from `src/reactor/src/lib.rs` (the source spells the
first variant `ShutdownChanelBroken`). -/
inductive InternalError where
  | ShutdownChanelBroken
  | ControlChannelBroken
  | ThreadError
deriving DecidableEq, Repr

/-- A crossbeam `chan::Sender<T>` endpoint: a send succeeds iff a receiver
is still alive.  `connected = false` is the state after the owner of every
receiving end — here the `Runtime` — is gone. -/
structure Sender (T : Type) where
  connected : Bool

/-- Embeds `chan::SendError<T>`: it carries back the unsent message. -/
inductive SendError (T : Type) where
  | mk (msg : T)

/-- Embeds `chan::Sender::send`. -/
def chan_send {T : Type} (s : Sender T) (msg : T) : Except (SendError T) Unit :=
  if s.connected then Except.ok () else Except.error (SendError.mk msg)

/-- Embeds `impl From<chan::SendError<ControlEvent<R>>> for InternalError`. -/
def internalError_from_sendError {T : Type} (_ : SendError T) : InternalError :=
  InternalError.ControlChannelBroken

/-- Embeds `ReactorApi::connect` for `chan::Sender<ControlEvent<R>>`: enqueue a
`Connect` event; `?` maps a send failure through the `From` impl. -/
def sender_connect (s : Sender (ControlEvent Ctx Id Cmd)) (addr : Ctx) :
    Except InternalError Unit :=
  match chan_send s (ControlEvent.Connect addr) with
  | Except.ok () => Except.ok ()
  | Except.error e => Except.error (internalError_from_sendError e)

/-- Embeds `ReactorApi::disconnect` for `chan::Sender<ControlEvent<R>>`. -/
def sender_disconnect (s : Sender (ControlEvent Ctx Id Cmd)) (i : Id) :
    Except InternalError Unit :=
  match chan_send s (ControlEvent.Disconnect i) with
  | Except.ok () => Except.ok ()
  | Except.error e => Except.error (internalError_from_sendError e)

/-- Embeds `ReactorApi::set_timer` for `chan::Sender<ControlEvent<R>>`: the source
method takes no duration and no token and enqueues `SetTimer()`. -/
def sender_set_timer (s : Sender (ControlEvent Ctx Id Cmd)) :
    Except InternalError Unit :=
  match chan_send s ControlEvent.SetTimer with
  | Except.ok () => Except.ok ()
  | Except.error e => Except.error (internalError_from_sendError e)

/-- Embeds `ReactorApi::send` for `chan::Sender<ControlEvent<R>>`. -/
def sender_send (s : Sender (ControlEvent Ctx Id Cmd)) (i : Id) (data : Cmd) :
    Except InternalError Unit :=
  match chan_send s (ControlEvent.Send i data) with
  | Except.ok () => Except.ok ()
  | Except.error e => Except.error (internalError_from_sendError e)

/-- Embeds `Controller<R>` from `src/reactor/src/lib.rs`: a clone of the control
channel's sending end. -/
structure Controller (Ctx Id Cmd : Type) where
  control : Sender (ControlEvent Ctx Id Cmd)

/-- Embeds `impl ReactorApi for Controller`: `connect` delegates to the sender. -/
def Controller.connect (c : Controller Ctx Id Cmd) (addr : Ctx) : Except InternalError Unit :=
  sender_connect c.control addr

/-- Embeds `impl ReactorApi for Controller`: `disconnect` delegates to the sender. -/
def Controller.disconnect (c : Controller Ctx Id Cmd) (i : Id) : Except InternalError Unit :=
  sender_disconnect c.control i

/-- Embeds `impl ReactorApi for Controller`: `set_timer` delegates to the sender. -/
def Controller.set_timer (c : Controller Ctx Id Cmd) : Except InternalError Unit :=
  sender_set_timer c.control

/-- Embeds `impl ReactorApi for Controller`: `send` delegates to the sender. -/
def Controller.send (c : Controller Ctx Id Cmd) (i : Id) (data : Cmd) :
    Except InternalError Unit :=
  sender_send c.control i data

end Reactor

namespace Tcp

/-- Embeds `READ_BUFFER_SIZE` from `src/reactor/src/resources/tcp.rs`:
`u16::MAX as usize`. -/
def READ_BUFFER_SIZE : Nat := 65535

/-- Embeds the `io::ErrorKind` values the embedded code distinguishes. -/
inductive IOErrorKind where
  | WouldBlock
  | ConnectionReset
  | NotConnected
  | Other
deriving DecidableEq, Repr

/-- Embeds `DisconnectReason` from `src/reactor/src/resources/tcp.rs` (io errors
reduced to their kind). -/
inductive DisconnectReason where
  | DialError (err : IOErrorKind)
  | ConnectionError (err : IOErrorKind)
  | OnDemand
deriving DecidableEq, Repr

/-- Embeds `TcpLocator<A>` from `src/reactor/src/resources/tcp.rs`; socket
addresses are abstracted to `Nat`. -/
inductive TcpLocator (A : Type) where
  | Listener (addr : Nat)
  | Connection (addr : A)
deriving DecidableEq, Repr

/-- Embeds `ConnDirection` as used by `TcpSocket::handle_writable`. -/
inductive ConnDirection where
  | Inbound
  | Outbound
deriving DecidableEq, Repr

/-- Modelled from the spec: `InputEvent` (its defining module is not under
`src/`; §4.8 of the spec gives its three variants
`Connected{remote, local, direction}`, `Received(addr, bytes)` and
`Disconnected(addr, DisconnectReason)`).  Bytes are `Nat`s. -/
inductive InputEvent (Addr : Type) where
  | Connected (remote_addr : Addr) (local_addr : Option Addr) (direction : ConnDirection)
  | Received (addr : Addr) (data : List Nat)
  | Disconnected (addr : Addr) (reason : DisconnectReason)
deriving DecidableEq, Repr

/-- The `NetStream` operations `TcpSocket<S>` relies on, as a record of
functions over a stream state type `S`: `read` is handed the buffer size
and yields the bytes placed into the buffer, `shutdown(Shutdown::Both)`
backs `disconnect`, `peer_addr` backs `addr`. -/
structure NetStreamImpl (S : Type) where
  read : S → Nat → S × Except IOErrorKind (List Nat)
  write : S → List Nat → S × Except IOErrorKind Nat
  flush : S → S × Except IOErrorKind Unit
  shutdown : S → S × Except IOErrorKind Unit
  peer_addr : S → Nat

/-- Embeds `TcpSocket<S>` from `src/reactor/src/resources/tcp.rs`; the listener
half is abstracted to its local address. -/
inductive TcpSocket (S : Type) where
  | Listener (addr : Nat)
  | Stream (stream : S)
deriving DecidableEq, Repr

variable {S : Type}

/-- Embeds `Resource::addr` for `TcpSocket`. -/
def TcpSocket.addr (N : NetStreamImpl S) : TcpSocket S → TcpLocator Nat
  | TcpSocket.Listener a => TcpLocator.Listener a
  | TcpSocket.Stream s => TcpLocator.Connection (N.peer_addr s)

/-- Embeds the shared `Ok(0) | Err(_)` arm of `TcpSocket::handle_readable`:
`self.disconnect()?` — a `stream.shutdown(Shutdown::Both)` whose error is
propagated by `?` — followed by pushing
`Disconnected(self.addr(), ConnectionError(ConnectionReset))`. -/
def eof_disconnect (N : NetStreamImpl S) (s : S)
    (events : List (InputEvent (TcpLocator Nat))) :
    TcpSocket S × List (InputEvent (TcpLocator Nat)) × Except IOErrorKind Nat :=
  let q := N.shutdown s
  match q.2 with
  | Except.error e => (TcpSocket.Stream q.1, events, Except.error e)
  | Except.ok _ =>
    (TcpSocket.Stream q.1,
     events ++ [InputEvent.Disconnected
       (TcpSocket.addr N (TcpSocket.Stream q.1))
       (DisconnectReason.ConnectionError IOErrorKind.ConnectionReset)],
     Except.ok 1)

/-- Embeds `FdResource::handle_readable` for `TcpSocket` — the listener arm
returns `Ok(0)`; the stream arm reads into a zeroed `READ_BUFFER_SIZE`
buffer, early-returns a `WouldBlock` error, turns `Ok(0) | Err(_)` into
`disconnect()?` plus a `Disconnected(ConnectionReset)` event, and turns
`Ok(_)` into `Received(self.addr(), buffer.into())` — the conversion is of
the whole buffer, so the payload is the bytes read followed by the
remaining zero bytes of the buffer. -/
def handle_readable (N : NetStreamImpl S) (sock : TcpSocket S)
    (events : List (InputEvent (TcpLocator Nat))) :
    TcpSocket S × List (InputEvent (TcpLocator Nat)) × Except IOErrorKind Nat :=
  match sock with
  | TcpSocket.Listener a => (TcpSocket.Listener a, events, Except.ok 0)
  | TcpSocket.Stream stream =>
    let p := N.read stream READ_BUFFER_SIZE
    match p.2 with
    | Except.error err =>
      if err = IOErrorKind.WouldBlock then
        (TcpSocket.Stream p.1, events, Except.error err)
      else
        eof_disconnect N p.1 events
    | Except.ok data =>
      if data.length = 0 then
        eof_disconnect N p.1 events
      else
        (TcpSocket.Stream p.1,
         events ++ [InputEvent.Received
           (TcpSocket.addr N (TcpSocket.Stream p.1))
           (data ++ List.replicate (READ_BUFFER_SIZE - data.length) 0)],
         Except.ok 1)

/-- Embeds `impl io::Read for TcpSocket`: `read` errors with `NotConnected` on the
listener variant and delegates to the stream otherwise. -/
def TcpSocket.read (N : NetStreamImpl S) (sock : TcpSocket S) (bufLen : Nat) :
    TcpSocket S × Except IOErrorKind (List Nat) :=
  match sock with
  | TcpSocket.Listener a => (TcpSocket.Listener a, Except.error IOErrorKind.NotConnected)
  | TcpSocket.Stream stream =>
    let p := N.read stream bufLen
    (TcpSocket.Stream p.1, p.2)

/-- Embeds `impl io::Write for TcpSocket`: `write` errors with `NotConnected` on
the listener variant and delegates to the stream otherwise. -/
def TcpSocket.write (N : NetStreamImpl S) (sock : TcpSocket S) (buf : List Nat) :
    TcpSocket S × Except IOErrorKind Nat :=
  match sock with
  | TcpSocket.Listener a => (TcpSocket.Listener a, Except.error IOErrorKind.NotConnected)
  | TcpSocket.Stream stream =>
    let p := N.write stream buf
    (TcpSocket.Stream p.1, p.2)

/-- Embeds `impl io::Write for TcpSocket`: `flush` errors with `NotConnected` on
the listener variant and delegates to the stream otherwise. -/
def TcpSocket.flush (N : NetStreamImpl S) (sock : TcpSocket S) :
    TcpSocket S × Except IOErrorKind Unit :=
  match sock with
  | TcpSocket.Listener a => (TcpSocket.Listener a, Except.error IOErrorKind.NotConnected)
  | TcpSocket.Stream stream =>
    let p := N.flush stream
    (TcpSocket.Stream p.1, p.2)

end Tcp

namespace Reactor

variable {Id Ctx Cmd Err Res IoSt : Type}

theorem hmGet_hmInsert [DecidableEq Id] (l : List (Id × Res)) (i : Id) (r : Res) (q : Id) :
    hmGet (hmInsert l i r) q = if i = q then some r else hmGet l q := by
  induction l with
  | nil => simp [hmInsert, hmGet]
  | cons p rest ih =>
    rcases p with ⟨k, v⟩
    by_cases hk : k = i
    · subst hk
      by_cases hq : k = q <;> simp [hmInsert, hmGet, hq]
    · by_cases hq : k = q
      · subst hq
        have hiq : ¬ i = k := fun h => hk h.symm
        simp [hmInsert, hmGet, hk, hiq]
      · simp [hmInsert, hmGet, hk, hq, ih]

theorem hmGet_hmRemove [DecidableEq Id] (l : List (Id × Res)) (i : Id) (q : Id) :
    hmGet (hmRemove l i) q = if i = q then none else hmGet l q := by
  induction l with
  | nil => simp [hmRemove, hmGet]
  | cons p rest ih =>
    rcases p with ⟨k, v⟩
    by_cases hk : k = i
    · subst hk
      by_cases hq : k = q
      · subst hq; simp [hmRemove, hmGet, ih]
      · simp [hmRemove, hmGet, hq, ih]
    · by_cases hq : k = q
      · subst hq
        have hiq : ¬ i = k := fun h => hk h.symm
        simp [hmRemove, hmGet, hk, hiq]
      · simp [hmRemove, hmGet, hk, hq, ih]

theorem hmGet_hmUpdate_isSome [DecidableEq Id] (l : List (Id × Res)) (i : Id) (r : Res)
    (q : Id) : (hmGet (hmUpdate l i r) q).isSome = (hmGet l q).isSome := by
  induction l with
  | nil => rfl
  | cons p rest ih =>
    rcases p with ⟨k, v⟩
    by_cases hk : k = i
    · subst hk
      by_cases hq : k = q
      · subst hq; simp [hmUpdate, hmGet, ih]
      · simp [hmUpdate, hmGet, hq, ih]
    · by_cases hq : k = q
      · subst hq; simp [hmUpdate, hmGet, hk]
      · simp [hmUpdate, hmGet, hk, hq, ih]

/-- Projection picking the `io_ready` deliveries out of a trace. -/
def extractIo : TraceEv Id → Option (IoSrc Id)
  | TraceEv.io_ready i ev => some ⟨i, ev⟩
  | TraceEv.handle_cmd _ => none
  | TraceEv.handle_err => none
  | TraceEv.broker => none

theorem route_err_none_eq (R : ResourceImpl Id Ctx Cmd Err Res) (res : Res)
    (log : List Err) : route_err R res none log = (res, log, []) := rfl

theorem route_err_some_eq (R : ResourceImpl Id Ctx Cmd Err Res) (res : Res) (err : Err)
    (log : List Err) :
    route_err R res (some err) log =
      (match (R.handle_err res err).2 with
       | none => ((R.handle_err res err).1, log, [TraceEv.handle_err])
       | some e2 =>
         ((R.handle_err res err).1, log ++ [e2], [TraceEv.handle_err, TraceEv.broker])) := rfl

theorem route_err_no_io (R : ResourceImpl Id Ctx Cmd Err Res) (res : Res) (r : Option Err)
    (log : List Err) : ∀ e ∈ (route_err R res r log).2.2, extractIo e = none := by
  cases r with
  | none => intro e he; simp [route_err_none_eq] at he
  | some err =>
    intro e he
    rw [route_err_some_eq] at he
    cases h2 : (R.handle_err res err).2 with
    | none =>
      rw [h2] at he
      simp at he
      subst he; rfl
    | some e2 =>
      rw [h2] at he
      simp at he
      rcases he with he | he <;> subst he <;> rfl

theorem dispatch_io_none_eq [DecidableEq Id] (R : ResourceImpl Id Ctx Cmd Err Res)
    (st : RuntimeState Id Res IoSt Err) (src : IoSrc Id)
    (hG : hmGet st.resources src.source = none) : dispatch_io R st src = none := by
  unfold dispatch_io
  rw [hG]

theorem dispatch_io_some_eq [DecidableEq Id] (R : ResourceImpl Id Ctx Cmd Err Res)
    (st : RuntimeState Id Res IoSt Err) (src : IoSrc Id) (res : Res)
    (hG : hmGet st.resources src.source = some res) :
    dispatch_io R st src =
      some ({ st with
              resources := hmUpdate st.resources src.source
                (route_err R (R.io_ready res src.io).1 (R.io_ready res src.io).2
                  st.brokerLog).1,
              brokerLog :=
                (route_err R (R.io_ready res src.io).1 (R.io_ready res src.io).2
                  st.brokerLog).2.1 },
            TraceEv.io_ready src.source src.io ::
              (route_err R (R.io_ready res src.io).1 (R.io_ready res src.io).2
                st.brokerLog).2.2) := by
  unfold dispatch_io
  rw [hG]

theorem dispatch_io_isSome [DecidableEq Id] (R : ResourceImpl Id Ctx Cmd Err Res)
    (st st1 : RuntimeState Id Res IoSt Err) (src : IoSrc Id) (tr : List (TraceEv Id))
    (h : dispatch_io R st src = some (st1, tr)) :
    ∀ q, (hmGet st1.resources q).isSome = (hmGet st.resources q).isSome := by
  cases hG : hmGet st.resources src.source with
  | none => rw [dispatch_io_none_eq R st src hG] at h; exact absurd h (by simp)
  | some res =>
    rw [dispatch_io_some_eq R st src res hG] at h
    simp only [Option.some.injEq, Prod.mk.injEq] at h
    intro q
    rw [← h.1]
    exact hmGet_hmUpdate_isSome st.resources src.source _ q

theorem io_phase_trace [DecidableEq Id] (R : ResourceImpl Id Ctx Cmd Err Res) :
    ∀ (evs : List (IoSrc Id)) (st st1 : RuntimeState Id Res IoSt Err) (tr : List (TraceEv Id)),
      io_phase R st evs = some (st1, tr) → tr.filterMap extractIo = evs := by
  intro evs
  induction evs with
  | nil =>
    intro st st1 tr h
    simp [io_phase] at h
    rw [h.2]
    rfl
  | cons src rest ih =>
    intro st st1 tr h
    unfold io_phase at h
    cases hD : dispatch_io R st src with
    | none => rw [hD] at h; exact absurd h (by simp)
    | some p =>
      rcases p with ⟨stA, trA⟩
      simp only [hD] at h
      cases hP : io_phase R stA rest with
      | none => rw [hP] at h; exact absurd h (by simp)
      | some qq =>
        rcases qq with ⟨stB, trB⟩
        simp only [hP, Option.some.injEq, Prod.mk.injEq] at h
        rw [← h.2]
        rw [List.filterMap_append]
        have hB : trB.filterMap extractIo = rest := ih stA stB trB hP
        have hA : trA.filterMap extractIo = [src] := by
          cases hG : hmGet st.resources src.source with
          | none => rw [dispatch_io_none_eq R st src hG] at hD; exact absurd hD (by simp)
          | some res =>
            rw [dispatch_io_some_eq R st src res hG] at hD
            simp only [Option.some.injEq, Prod.mk.injEq] at hD
            rw [← hD.2]
            have h2 : (List.filterMap extractIo
                (route_err R (R.io_ready res src.io).1 (R.io_ready res src.io).2
                  st.brokerLog).2.2) = [] := by
              rw [List.filterMap_eq_nil]
              exact route_err_no_io R (R.io_ready res src.io).1 (R.io_ready res src.io).2
                st.brokerLog
            simp [List.filterMap_cons, extractIo, h2]
        rw [hA, hB]
        rfl

theorem io_phase_total [DecidableEq Id] (R : ResourceImpl Id Ctx Cmd Err Res) :
    ∀ (evs : List (IoSrc Id)) (st : RuntimeState Id Res IoSt Err),
      (∀ src ∈ evs, (hmGet st.resources src.source).isSome = true) →
      (io_phase R st evs).isSome = true := by
  intro evs
  induction evs with
  | nil => intro st _; rfl
  | cons src rest ih =>
    intro st h
    have hhd : (hmGet st.resources src.source).isSome = true := h src (by simp)
    cases hG : hmGet st.resources src.source with
    | none => rw [hG] at hhd; exact absurd hhd (by simp)
    | some res =>
      have hD := dispatch_io_some_eq R st src res hG
      set stA : RuntimeState Id Res IoSt Err := { st with
        resources := hmUpdate st.resources src.source
          (route_err R (R.io_ready res src.io).1 (R.io_ready res src.io).2 st.brokerLog).1,
        brokerLog :=
          (route_err R (R.io_ready res src.io).1 (R.io_ready res src.io).2
            st.brokerLog).2.1 } with hstA
      have hrest : ∀ s ∈ rest, (hmGet stA.resources s.source).isSome = true := by
        intro s hs
        have hkeys := dispatch_io_isSome R st stA src _ hD s.source
        rw [hkeys]
        exact h s (by simp [hs])
      have hih := ih stA hrest
      cases hP : io_phase R stA rest with
      | none => rw [hP] at hih; exact absurd hih (by simp)
      | some p =>
        rcases p with ⟨stB, trB⟩
        unfold io_phase
        rw [hD]
        simp [hP]

theorem process_event_connect_err_eq [DecidableEq Id] (R : ResourceImpl Id Ctx Cmd Err Res)
    (M : IoManagerImpl Id Err IoSt) (st : RuntimeState Id Res IoSt Err) (context : Ctx)
    (err : Err) (hW : R.withCtx context = Except.error err) :
    process_event R M st (ControlEvent.Connect context) =
      ({ st with brokerLog := st.brokerLog ++ [err] }, [TraceEv.broker]) := by
  simp only [process_event]
  rw [hW]

theorem process_event_connect_ok_eq [DecidableEq Id] (R : ResourceImpl Id Ctx Cmd Err Res)
    (M : IoManagerImpl Id Err IoSt) (st : RuntimeState Id Res IoSt Err) (context : Ctx)
    (resource : Res) (hW : R.withCtx context = Except.ok resource) :
    process_event R M st (ControlEvent.Connect context) =
      ({ st with
         io := (M.register_resource st.io (R.id resource)).1,
         brokerLog :=
           (route_err R resource (M.register_resource st.io (R.id resource)).2
             st.brokerLog).2.1,
         resources := hmInsert st.resources
           (R.id (route_err R resource (M.register_resource st.io (R.id resource)).2
             st.brokerLog).1)
           (route_err R resource (M.register_resource st.io (R.id resource)).2
             st.brokerLog).1 },
       (route_err R resource (M.register_resource st.io (R.id resource)).2
         st.brokerLog).2.2) := by
  simp only [process_event]
  rw [hW]

theorem process_event_disconnect_none_eq [DecidableEq Id] (R : ResourceImpl Id Ctx Cmd Err Res)
    (M : IoManagerImpl Id Err IoSt) (st : RuntimeState Id Res IoSt Err) (i : Id)
    (io2 : IoSt) (hU : M.unregister_resource st.io i = (io2, none)) :
    process_event R M st (ControlEvent.Disconnect i : ControlEvent Ctx Id Cmd) =
      ({ st with io := io2, resources := hmRemove st.resources i }, []) := by
  simp only [process_event]
  rw [hU]

theorem process_event_disconnect_some_eq [DecidableEq Id] (R : ResourceImpl Id Ctx Cmd Err Res)
    (M : IoManagerImpl Id Err IoSt) (st : RuntimeState Id Res IoSt Err) (i : Id)
    (io2 : IoSt) (err : Err) (hU : M.unregister_resource st.io i = (io2, some err)) :
    process_event R M st (ControlEvent.Disconnect i : ControlEvent Ctx Id Cmd) =
      ({ st with io := io2, brokerLog := st.brokerLog ++ [err],
                 resources := hmRemove st.resources i }, [TraceEv.broker]) := by
  simp only [process_event]
  rw [hU]

theorem process_event_set_timer_eq [DecidableEq Id] (R : ResourceImpl Id Ctx Cmd Err Res)
    (M : IoManagerImpl Id Err IoSt) (st : RuntimeState Id Res IoSt Err) :
    process_event R M st (ControlEvent.SetTimer : ControlEvent Ctx Id Cmd) = (st, []) := rfl

theorem process_event_send_none_eq [DecidableEq Id] (R : ResourceImpl Id Ctx Cmd Err Res)
    (M : IoManagerImpl Id Err IoSt) (st : RuntimeState Id Res IoSt Err) (i : Id) (data : Cmd)
    (hG : hmGet st.resources i = none) :
    process_event R M st (ControlEvent.Send i data) = (st, []) := by
  simp only [process_event]
  rw [hG]

theorem process_event_send_some_eq [DecidableEq Id] (R : ResourceImpl Id Ctx Cmd Err Res)
    (M : IoManagerImpl Id Err IoSt) (st : RuntimeState Id Res IoSt Err) (i : Id) (data : Cmd)
    (resource : Res) (hG : hmGet st.resources i = some resource) :
    process_event R M st (ControlEvent.Send i data) =
      ({ st with
         resources := hmUpdate st.resources i
           (route_err R (R.handle_cmd resource data).1 (R.handle_cmd resource data).2
             st.brokerLog).1,
         brokerLog :=
           (route_err R (R.handle_cmd resource data).1 (R.handle_cmd resource data).2
             st.brokerLog).2.1 },
       TraceEv.handle_cmd i ::
         (route_err R (R.handle_cmd resource data).1 (R.handle_cmd resource data).2
           st.brokerLog).2.2) := by
  simp only [process_event]
  rw [hG]

theorem process_event_no_io [DecidableEq Id] (R : ResourceImpl Id Ctx Cmd Err Res)
    (M : IoManagerImpl Id Err IoSt) (st : RuntimeState Id Res IoSt Err)
    (ev : ControlEvent Ctx Id Cmd) :
    ∀ e ∈ (process_event R M st ev).2, extractIo e = none := by
  intro e he
  cases ev with
  | Connect context =>
    cases hW : R.withCtx context with
    | error err =>
      rw [process_event_connect_err_eq R M st context err hW] at he
      simp at he
      subst he; rfl
    | ok resource =>
      rw [process_event_connect_ok_eq R M st context resource hW] at he
      exact route_err_no_io R resource (M.register_resource st.io (R.id resource)).2
        st.brokerLog e he
  | Disconnect i =>
    rcases hU : M.unregister_resource st.io i with ⟨io2, rr⟩
    cases rr with
    | none =>
      rw [process_event_disconnect_none_eq R M st i io2 hU] at he
      simp at he
    | some err =>
      rw [process_event_disconnect_some_eq R M st i io2 err hU] at he
      simp at he
      subst he; rfl
  | SetTimer => simp [process_event_set_timer_eq] at he
  | Send i data =>
    cases hG : hmGet st.resources i with
    | none =>
      rw [process_event_send_none_eq R M st i data hG] at he
      simp at he
    | some resource =>
      rw [process_event_send_some_eq R M st i data resource hG] at he
      simp at he
      rcases he with he | he
      · subst he; rfl
      · exact route_err_no_io R (R.handle_cmd resource data).1
          (R.handle_cmd resource data).2 st.brokerLog e he

theorem process_control_no_io [DecidableEq Id] (R : ResourceImpl Id Ctx Cmd Err Res)
    (M : IoManagerImpl Id Err IoSt) :
    ∀ (evs : List (ControlEvent Ctx Id Cmd)) (st : RuntimeState Id Res IoSt Err),
      ∀ e ∈ (process_control R M st evs).2, extractIo e = none := by
  intro evs
  induction evs with
  | nil => intro st e he; simp [process_control] at he
  | cons ev rest ih =>
    intro st e he
    unfold process_control at he
    rcases hE : process_event R M st ev with ⟨st1, tr1⟩
    simp only [hE] at he
    rcases hP : process_control R M st1 rest with ⟨st2, tr2⟩
    simp only [hP] at he
    simp at he
    rcases he with he | he
    · exact process_event_no_io R M st ev e (by rw [hE]; exact he)
    · exact ih st1 e (by rw [hP]; exact he)

end Reactor
namespace Reactor

variable {Id Ctx Cmd Err Res IoSt : Type}

/-- Projection picking the `handle_cmd` invocations out of a trace. -/
def extractCmd : TraceEv Id → Option Id
  | TraceEv.io_ready _ _ => none
  | TraceEv.handle_cmd i => some i
  | TraceEv.handle_err => none
  | TraceEv.broker => none

theorem route_err_no_cmd (R : ResourceImpl Id Ctx Cmd Err Res) (res : Res) (r : Option Err)
    (log : List Err) : ∀ e ∈ (route_err R res r log).2.2, extractCmd e = none := by
  cases r with
  | none => intro e he; simp [route_err_none_eq] at he
  | some err =>
    intro e he
    rw [route_err_some_eq] at he
    cases h2 : (R.handle_err res err).2 with
    | none =>
      rw [h2] at he
      simp at he
      subst he; rfl
    | some e2 =>
      rw [h2] at he
      simp at he
      rcases he with he | he <;> subst he <;> rfl

theorem io_phase_no_cmd [DecidableEq Id] (R : ResourceImpl Id Ctx Cmd Err Res) :
    ∀ (evs : List (IoSrc Id)) (st st1 : RuntimeState Id Res IoSt Err) (tr : List (TraceEv Id)),
      io_phase R st evs = some (st1, tr) → ∀ e ∈ tr, extractCmd e = none := by
  intro evs
  induction evs with
  | nil =>
    intro st st1 tr h
    simp [io_phase] at h
    rw [h.2]
    intro e he
    simp at he
  | cons src rest ih =>
    intro st st1 tr h
    unfold io_phase at h
    cases hD : dispatch_io R st src with
    | none => rw [hD] at h; exact absurd h (by simp)
    | some p =>
      rcases p with ⟨stA, trA⟩
      simp only [hD] at h
      cases hP : io_phase R stA rest with
      | none => rw [hP] at h; exact absurd h (by simp)
      | some qq =>
        rcases qq with ⟨stB, trB⟩
        simp only [hP, Option.some.injEq, Prod.mk.injEq] at h
        intro e he
        rw [← h.2] at he
        rcases List.mem_append.mp he with he | he
        · cases hG : hmGet st.resources src.source with
          | none => rw [dispatch_io_none_eq R st src hG] at hD; exact absurd hD (by simp)
          | some res =>
            rw [dispatch_io_some_eq R st src res hG] at hD
            simp only [Option.some.injEq, Prod.mk.injEq] at hD
            rw [← hD.2] at he
            simp at he
            rcases he with he | he
            · subst he; rfl
            · exact route_err_no_cmd R (R.io_ready res src.io).1 (R.io_ready res src.io).2
                st.brokerLog e he
        · exact ih stA stB trB hP e he

/-- C1 — the code side: `Runtime::process_shutdown` on receiving the shutdown
signal (`Ok(())` from `try_recv`) leaves the whole state — including every
registered resource — untouched, and `run_iteration` behaves exactly as if
the channel had been empty: nothing is unregistered, nothing is dropped, and
the loop is not terminated (`Runtime::run` has return type `!`, and
`process_shutdown` has no terminating outcome at all). -/
theorem shutdown_signal_is_ignored [DecidableEq Id] (R : ResourceImpl Id Ctx Cmd Err Res)
    (M : IoManagerImpl Id Err IoSt) (st : RuntimeState Id Res IoSt Err)
    (ioErr : Option Err) (ioEvs : List (IoSrc Id)) (ctlEvs : List (ControlEvent Ctx Id Cmd)) :
    process_shutdown st TryRecvUnit.ok = some st
    ∧ (process_shutdown st TryRecvUnit.ok).map (fun s => s.resources) = some st.resources
    ∧ run_iteration R M st ioErr ioEvs ctlEvs TryRecvUnit.ok
        = run_iteration R M st ioErr ioEvs ctlEvs TryRecvUnit.empty :=
  ⟨rfl, rfl, rfl⟩

/-- C2 — the code side: the `SetTimer` arm of `Runtime::process_control` is a
no-op (`// TODO: Add timeout manager`): it changes nothing — in particular
the `TimeoutManager` receives no insertion — and invokes no handler.  The
`ControlEvent.SetTimer` constructor itself carries no duration and no token,
and `sender_set_timer` (the `ReactorApi::set_timer` impl) takes no such
arguments and enqueues the bare `SetTimer` event. -/
theorem set_timer_is_noop [DecidableEq Id] (R : ResourceImpl Id Ctx Cmd Err Res)
    (M : IoManagerImpl Id Err IoSt) (st : RuntimeState Id Res IoSt Err)
    (s : Sender (ControlEvent Ctx Id Cmd)) :
    process_event R M st (ControlEvent.SetTimer : ControlEvent Ctx Id Cmd) = (st, [])
    ∧ (process_event R M st (ControlEvent.SetTimer : ControlEvent Ctx Id Cmd)).1.timeouts
        = st.timeouts
    ∧ sender_set_timer s
        = (match chan_send s ControlEvent.SetTimer with
           | Except.ok () => Except.ok ()
           | Except.error e => Except.error (internalError_from_sendError e)) :=
  ⟨rfl, rfl, rfl⟩

/-- C6: an error returned by `io_ready` (in phase 2) or by `handle_cmd` (in
the `Send` arm) is routed through the `route_err` combinator chain of the
source — it is first offered to the resource's own `handle_err`; if
`handle_err` returns `Ok` the error is swallowed (the broker log is
unchanged and no broker call is traced), and if `handle_err` returns another
error, that error is appended to the broker log. -/
theorem resource_error_routing [DecidableEq Id] (R : ResourceImpl Id Ctx Cmd Err Res)
    (M : IoManagerImpl Id Err IoSt) (st : RuntimeState Id Res IoSt Err) (src : IoSrc Id)
    (data : Cmd) (res res1 resc : Res) (err errc : Err)
    (hres : hmGet st.resources src.source = some res)
    (hio : R.io_ready res src.io = (res1, some err))
    (hcmd : R.handle_cmd res data = (resc, some errc)) :
    (dispatch_io R st src =
      some ({ st with
              resources := hmUpdate st.resources src.source
                (route_err R res1 (some err) st.brokerLog).1,
              brokerLog := (route_err R res1 (some err) st.brokerLog).2.1 },
            TraceEv.io_ready src.source src.io
              :: (route_err R res1 (some err) st.brokerLog).2.2))
    ∧ (process_event R M st (ControlEvent.Send src.source data) =
        ({ st with
           resources := hmUpdate st.resources src.source
             (route_err R resc (some errc) st.brokerLog).1,
           brokerLog := (route_err R resc (some errc) st.brokerLog).2.1 },
         TraceEv.handle_cmd src.source
           :: (route_err R resc (some errc) st.brokerLog).2.2))
    ∧ (route_err R res1 (some err) st.brokerLog =
        match R.handle_err res1 err with
        | (res2, none) => (res2, st.brokerLog, [TraceEv.handle_err])
        | (res2, some e2) =>
          (res2, st.brokerLog ++ [e2], [TraceEv.handle_err, TraceEv.broker])) := by
  refine ⟨?_, ?_, ?_⟩
  · rw [dispatch_io_some_eq R st src res hres, hio]
  · rw [process_event_send_some_eq R M st src.source data res hres, hcmd]
  · rw [route_err_some_eq]
    rcases hE : R.handle_err res1 err with ⟨res2, r2⟩
    cases r2 <;> rfl

/-- C7: within one `Runtime::run` iteration, the trace of handler calls
splits into a prefix holding exactly the `io_ready` deliveries for the
drained readiness events (in order, and free of any `handle_cmd` call) and a
suffix — the control-channel processing — holding no `io_ready` delivery at
all: all I/O readiness is delivered before any control event is processed. -/
theorem io_before_control [DecidableEq Id] (R : ResourceImpl Id Ctx Cmd Err Res)
    (M : IoManagerImpl Id Err IoSt) (st st' : RuntimeState Id Res IoSt Err)
    (ioErr : Option Err) (ioEvs : List (IoSrc Id)) (ctlEvs : List (ControlEvent Ctx Id Cmd))
    (sh : TryRecvUnit) (tr : List (TraceEv Id))
    (h : run_iteration R M st ioErr ioEvs ctlEvs sh = some (st', tr)) :
    ∃ pre post, tr = pre ++ post
      ∧ pre.filterMap extractIo = ioEvs
      ∧ (∀ e ∈ pre, extractCmd e = none)
      ∧ (∀ e ∈ post, extractIo e = none) := by
  rcases hQ : (match ioErr with
    | none => (st, ([] : List (TraceEv Id)))
    | some err => ({ st with brokerLog := st.brokerLog ++ [err] }, [TraceEv.broker]))
    with ⟨st0, tr0⟩
  have htr0 : ∀ e ∈ tr0, extractIo e = none ∧ extractCmd e = none := by
    cases ioErr with
    | none =>
      simp only [Prod.mk.injEq] at hQ
      intro e he
      rw [← hQ.2] at he
      simp at he
    | some err =>
      simp only [Prod.mk.injEq] at hQ
      have h2 : tr0 = [TraceEv.broker] := hQ.2.symm
      intro e he
      rw [h2] at he
      simp at he
      subst he
      exact ⟨rfl, rfl⟩
  simp only [run_iteration, hQ] at h
  cases hIp : io_phase R st0 ioEvs with
  | none => rw [hIp] at h; exact absurd h (by simp)
  | some p1 =>
    rcases p1 with ⟨st1, tr1⟩
    simp only [hIp] at h
    rcases hPc : process_control R M st1 ctlEvs with ⟨st2, tr2⟩
    simp only [hPc] at h
    have hfin : tr = tr0 ++ tr1 ++ tr2 := by
      cases sh with
      | disconnected => exact absurd h (by simp [process_shutdown])
      | ok =>
        simp only [process_shutdown, Option.some.injEq, Prod.mk.injEq] at h
        exact h.2.symm
      | empty =>
        simp only [process_shutdown, Option.some.injEq, Prod.mk.injEq] at h
        exact h.2.symm
    refine ⟨tr0 ++ tr1, tr2, by rw [hfin], ?_, ?_, ?_⟩
    · rw [List.filterMap_append]
      have hf0 : tr0.filterMap extractIo = [] := by
        rw [List.filterMap_eq_nil]
        intro e he
        exact (htr0 e he).1
      rw [hf0, io_phase_trace R ioEvs st0 st1 tr1 hIp, List.nil_append]
    · intro e he
      rcases List.mem_append.mp he with he | he
      · exact (htr0 e he).2
      · exact io_phase_no_cmd R ioEvs st0 st1 tr1 hIp e he
    · intro e he
      exact process_control_no_io R M ctlEvs st1 e (by rw [hPc]; exact he)

/-- C8: a `Send(id, cmd)` control event whose id is absent from the resource
registry is dropped silently — the whole runtime state (registry, io
manager, broker log, timeout manager) is returned unchanged and no handler
call (`handle_cmd`, `handle_err`, broker) is traced. -/
theorem send_unknown_id_dropped [DecidableEq Id] (R : ResourceImpl Id Ctx Cmd Err Res)
    (M : IoManagerImpl Id Err IoSt) (st : RuntimeState Id Res IoSt Err) (i : Id) (data : Cmd)
    (h : hmGet st.resources i = none) :
    process_event R M st (ControlEvent.Send i data) = (st, []) :=
  process_event_send_none_eq R M st i data h

/-- C9: phase 2 of `Runtime::run` panics on a yielded id exactly when that
id is absent from the registry (`.expect("resource management
inconsistency")`), and under the precondition that every yielded id is
registered the whole phase succeeds and delivers one `io_ready` per yielded
`(id, ev)` pair, in order. -/
theorem io_ready_guarded_dispatch [DecidableEq Id] (R : ResourceImpl Id Ctx Cmd Err Res)
    (st : RuntimeState Id Res IoSt Err) (evs : List (IoSrc Id))
    (h : ∀ src ∈ evs, (hmGet st.resources src.source).isSome = true) :
    (∀ src : IoSrc Id, dispatch_io R st src = none ↔ hmGet st.resources src.source = none)
    ∧ ∃ st1 tr, io_phase R st evs = some (st1, tr) ∧ tr.filterMap extractIo = evs := by
  constructor
  · intro src
    constructor
    · intro hnone
      cases hG : hmGet st.resources src.source with
      | none => rfl
      | some res =>
        rw [dispatch_io_some_eq R st src res hG] at hnone
        exact absurd hnone (by simp)
    · intro hG
      exact dispatch_io_none_eq R st src hG
  · have htot := io_phase_total R evs st h
    cases hIp : io_phase R st evs with
    | none => rw [hIp] at htot; exact absurd htot (by simp)
    | some p =>
      rcases p with ⟨st1, tr⟩
      exact ⟨st1, tr, rfl, io_phase_trace R evs st st1 tr hIp⟩

end Reactor
namespace Reactor

variable {Id Ctx Cmd Err Res IoSt : Type}

/-- Invariant of §3 of the spec: an id appears in the registry iff the
`IoManager` is monitoring its underlying handle. -/
def registry_io_sync [DecidableEq Id] (M : IoManagerImpl Id Err IoSt) {Res : Type}
    (st : RuntimeState Id Res IoSt Err) : Prop :=
  ∀ i, (hmGet st.resources i).isSome = M.has_resource st.io i

/-- C3 (amended): the registry↔monitoring invariant is preserved by
`Disconnect` and by a `Connect` whose `register_resource` call succeeds,
for any `IoManager` whose `register_resource` adds exactly the registered
id on success and whose `unregister_resource` removes exactly the
unregistered id. -/
theorem connect_ok_disconnect_preserve_sync [DecidableEq Id]
    (R : ResourceImpl Id Ctx Cmd Err Res) (M : IoManagerImpl Id Err IoSt)
    (st : RuntimeState Id Res IoSt Err) (ctx : Ctx) (r : Res) (i : Id)
    (Hreg : ∀ io k j, (M.register_resource io k).2 = none →
      M.has_resource (M.register_resource io k).1 j
        = (M.has_resource io j || decide (j = k)))
    (Hunreg : ∀ io k j,
      M.has_resource (M.unregister_resource io k).1 j
        = (M.has_resource io j && !(decide (j = k))))
    (hsync : registry_io_sync M st)
    (hw : R.withCtx ctx = Except.ok r)
    (hreg : (M.register_resource st.io (R.id r)).2 = none) :
    registry_io_sync M (process_event R M st (ControlEvent.Disconnect i)).1
    ∧ registry_io_sync M (process_event R M st (ControlEvent.Connect ctx)).1 := by
  constructor
  · rcases hU : M.unregister_resource st.io i with ⟨io2, rr⟩
    have h2 : ∀ j, M.has_resource io2 j
        = (M.has_resource st.io j && !(decide (j = i))) := by
      intro j
      have hh := Hunreg st.io i j
      rw [hU] at hh
      exact hh
    have hmain : ∀ j, (hmGet (hmRemove st.resources i) j).isSome
        = M.has_resource io2 j := by
      intro j
      rw [hmGet_hmRemove st.resources i j, h2 j]
      by_cases hij : j = i
      · subst hij
        simp [hsync j]
      · have hij2 : ¬ i = j := fun hh => hij hh.symm
        simp [hij, hij2, hsync j]
    cases rr with
    | none =>
      rw [process_event_disconnect_none_eq R M st i io2 hU]
      intro j
      exact hmain j
    | some e =>
      rw [process_event_disconnect_some_eq R M st i io2 e hU]
      intro j
      exact hmain j
  · have hpe := process_event_connect_ok_eq R M st ctx r hw
    rw [hreg, route_err_none_eq] at hpe
    rw [hpe]
    intro j
    show (hmGet (hmInsert st.resources (R.id r) r) j).isSome
      = M.has_resource (M.register_resource st.io (R.id r)).1 j
    have h1 := hmGet_hmInsert st.resources (R.id r) r j
    have h2 := Hreg st.io (R.id r) j hreg
    rw [h1, h2]
    by_cases hij : R.id r = j
    · subst hij
      simp
    · have hij2 : ¬ j = R.id r := fun hh => hij hh.symm
      simp [hij, hij2, hsync j]

end Reactor

namespace Reactor

/-- The concrete resource used for instantiations: its state is its id;
`with` succeeds returning the context as the id, `io_ready` and
`handle_cmd` succeed, `handle_err` re-raises. -/
def R_pass : ResourceImpl Nat Nat Unit Unit Nat where
  withCtx := fun c => Except.ok c
  id := fun r => r
  io_ready := fun r _ => (r, none)
  handle_cmd := fun r _ => (r, none)
  handle_err := fun r e => (r, some e)

/-- A concrete resource whose `io_ready` and `handle_cmd` fail and whose
`handle_err` re-raises the error. -/
def R_fail : ResourceImpl Nat Nat Unit Unit Nat where
  withCtx := fun c => Except.ok c
  id := fun r => r
  io_ready := fun r _ => (r, some ())
  handle_cmd := fun r _ => (r, some ())
  handle_err := fun r e => (r, some e)

/-- A concrete io-manager model satisfying the `IoManager` contract:
`register_resource` starts monitoring exactly the given id,
`unregister_resource` stops monitoring it. -/
def M_ok : IoManagerImpl Nat Unit (List Nat) where
  has_resource := fun io j => decide (j ∈ io)
  register_resource := fun io k => (io ++ [k], none)
  unregister_resource := fun io k => (io.filter (fun x => decide (x ≠ k)), none)

/-- A concrete io-manager model whose `register_resource` always fails,
leaving the monitored set unchanged. -/
def M_regfail : IoManagerImpl Nat Unit (List Nat) where
  has_resource := fun io j => decide (j ∈ io)
  register_resource := fun io _ => (io, some ())
  unregister_resource := fun io k => (io.filter (fun x => decide (x ≠ k)), none)

/-- The empty runtime state. -/
def st_empty : RuntimeState Nat Nat (List Nat) Unit := ⟨[], [], [], []⟩

/-- A runtime state holding one registered and monitored resource with id 1. -/
def st_one : RuntimeState Nat Nat (List Nat) Unit := ⟨[(1, 1)], [1], [], []⟩

theorem M_ok_register : ∀ (io : List Nat) (k j : Nat),
    (M_ok.register_resource io k).2 = none →
    M_ok.has_resource (M_ok.register_resource io k).1 j
      = (M_ok.has_resource io j || decide (j = k)) := by
  intro io k j _
  have h1 : (j ∈ io ++ [k]) ↔ (j ∈ io ∨ j = k) := by simp
  show decide (j ∈ io ++ [k]) = (decide (j ∈ io) || decide (j = k))
  rw [decide_eq_decide.mpr h1, Bool.decide_or]

theorem M_ok_unregister : ∀ (io : List Nat) (k j : Nat),
    M_ok.has_resource (M_ok.unregister_resource io k).1 j
      = (M_ok.has_resource io j && !(decide (j = k))) := by
  intro io k j
  have h1 : (j ∈ io.filter (fun x => decide (x ≠ k))) ↔ (j ∈ io ∧ ¬ j = k) := by
    simp [List.mem_filter]
  show decide (j ∈ io.filter (fun x => decide (x ≠ k)))
      = (decide (j ∈ io) && !(decide (j = k)))
  rw [decide_eq_decide.mpr h1, Bool.decide_and, decide_not]

/-- C3 (counterexample): starting from the empty state — where the
registry↔monitoring invariant holds — processing a `Connect` whose
`register_resource` call returns an error leaves id 7 in the registry while
the io manager does not monitor it: the `Connect` arm of
`Runtime::process_control` inserts the resource into `self.resources`
regardless of the registration failure. -/
theorem connect_register_error_breaks_sync :
    registry_io_sync M_regfail st_empty
    ∧ (hmGet (process_event R_pass M_regfail st_empty
        (ControlEvent.Connect 7)).1.resources 7).isSome = true
    ∧ M_regfail.has_resource (process_event R_pass M_regfail st_empty
        (ControlEvent.Connect 7)).1.io 7 = false := by
  refine ⟨?_, rfl, rfl⟩
  intro i
  rfl

/-- Witness for C3's amended theorem at a concrete instantiation. -/
theorem connect_ok_disconnect_preserve_sync_witness :
    registry_io_sync M_ok (process_event R_pass M_ok st_empty
      (ControlEvent.Disconnect 3)).1
    ∧ registry_io_sync M_ok (process_event R_pass M_ok st_empty
      (ControlEvent.Connect 5)).1 :=
  connect_ok_disconnect_preserve_sync R_pass M_ok st_empty 5 5 3
    M_ok_register M_ok_unregister (fun _ => rfl) rfl rfl

/-- C4: a `connect` or `send` call made through a `Controller` whose
underlying control channel has no live receiver — the state after the
`Runtime`, sole owner of the receiving end, is gone — returns the
`ControlChannelBroken` internal error, via the
`From<chan::SendError<ControlEvent<R>>> for InternalError` impl. -/
theorem dead_controller_errors {Id Ctx Cmd : Type} (c : Controller Ctx Id Cmd)
    (addr : Ctx) (i : Id) (data : Cmd) (h : c.control.connected = false) :
    Controller.send c i data = Except.error InternalError.ControlChannelBroken
    ∧ Controller.connect c addr = Except.error InternalError.ControlChannelBroken := by
  constructor <;>
    simp [Controller.send, Controller.connect, sender_send, sender_connect, chan_send, h,
      internalError_from_sendError]

/-- Witness for C4 at a concrete dead controller. -/
theorem dead_controller_errors_witness :
    Controller.send (⟨⟨false⟩⟩ : Controller Nat Nat Nat) 1 2
      = Except.error InternalError.ControlChannelBroken
    ∧ Controller.connect (⟨⟨false⟩⟩ : Controller Nat Nat Nat) 3
      = Except.error InternalError.ControlChannelBroken :=
  dead_controller_errors (⟨⟨false⟩⟩ : Controller Nat Nat Nat) 3 1 2 rfl

/-- Witness for C6 at a concrete failing resource. -/
theorem resource_error_routing_witness :
    (dispatch_io R_fail st_one ⟨1, ⟨true, false⟩⟩ =
      some ({ st_one with
              resources := hmUpdate st_one.resources 1
                (route_err R_fail 1 (some ()) st_one.brokerLog).1,
              brokerLog := (route_err R_fail 1 (some ()) st_one.brokerLog).2.1 },
            TraceEv.io_ready 1 ⟨true, false⟩
              :: (route_err R_fail 1 (some ()) st_one.brokerLog).2.2))
    ∧ (process_event R_fail M_ok st_one (ControlEvent.Send 1 ()) =
        ({ st_one with
           resources := hmUpdate st_one.resources 1
             (route_err R_fail 1 (some ()) st_one.brokerLog).1,
           brokerLog := (route_err R_fail 1 (some ()) st_one.brokerLog).2.1 },
         TraceEv.handle_cmd 1
           :: (route_err R_fail 1 (some ()) st_one.brokerLog).2.2))
    ∧ (route_err R_fail 1 (some ()) st_one.brokerLog =
        match R_fail.handle_err 1 () with
        | (res2, none) => (res2, st_one.brokerLog, [TraceEv.handle_err])
        | (res2, some e2) =>
          (res2, st_one.brokerLog ++ [e2], [TraceEv.handle_err, TraceEv.broker])) :=
  resource_error_routing R_fail M_ok st_one ⟨1, ⟨true, false⟩⟩ () 1 1 1 () ()
    rfl rfl rfl

/-- Witness for C7 at a concrete iteration: one readiness delivery for
resource 1 followed by one `Send` command for it. -/
theorem io_before_control_witness :
    ∃ pre post,
      [TraceEv.io_ready (1 : Nat) ⟨true, false⟩, TraceEv.handle_cmd 1] = pre ++ post
      ∧ pre.filterMap extractIo = [⟨1, ⟨true, false⟩⟩]
      ∧ (∀ e ∈ pre, extractCmd e = none)
      ∧ (∀ e ∈ post, extractIo e = none) :=
  io_before_control R_pass M_ok st_one st_one none [⟨1, ⟨true, false⟩⟩]
    [ControlEvent.Send 1 ()] TryRecvUnit.empty
    [TraceEv.io_ready 1 ⟨true, false⟩, TraceEv.handle_cmd 1] rfl

/-- Witness for C8 at a concrete unknown id. -/
theorem send_unknown_id_dropped_witness :
    process_event R_pass M_ok st_empty (ControlEvent.Send 5 ()) = (st_empty, []) :=
  send_unknown_id_dropped R_pass M_ok st_empty 5 () rfl

/-- Witness for C9 at a concrete registered readiness event. -/
theorem io_ready_guarded_dispatch_witness :
    (∀ src : IoSrc Nat,
      dispatch_io R_pass st_one src = none ↔ hmGet st_one.resources src.source = none)
    ∧ ∃ st1 tr, io_phase R_pass st_one [⟨1, ⟨true, false⟩⟩] = some (st1, tr)
        ∧ tr.filterMap extractIo = [⟨1, ⟨true, false⟩⟩] :=
  io_ready_guarded_dispatch R_pass st_one [⟨1, ⟨true, false⟩⟩] (by decide)

end Reactor
namespace Tcp

variable {S : Type}

/-- A concrete stream whose `read` always yields `b"PING"` and whose peer
address is 9. -/
def N_ping : NetStreamImpl Unit where
  read := fun _ _ => ((), Except.ok [80, 73, 78, 71])
  write := fun s _ => (s, Except.ok 0)
  flush := fun s => (s, Except.ok ())
  shutdown := fun s => (s, Except.ok ())
  peer_addr := fun _ => 9

/-- C5 (counterexample): on a stream whose `read` returns the 4 bytes
`b"PING"` (`Ok(4)`), `handle_readable` does not push a `Received` event
whose payload is those 4 bytes: `Ok(_)` discards the read count and
`buffer.into()` converts the whole 65535-byte buffer. -/
theorem received_payload_not_truncated :
    (handle_readable N_ping (TcpSocket.Stream ()) []).2.1
      ≠ [InputEvent.Received (TcpLocator.Connection 9) [80, 73, 78, 71]] := by
  intro h
  have h1 : (handle_readable N_ping (TcpSocket.Stream ()) []).2.1
      = [InputEvent.Received (TcpLocator.Connection 9)
          (([80, 73, 78, 71] : List Nat)
            ++ List.replicate (READ_BUFFER_SIZE - 4) 0)] := rfl
  rw [h1] at h
  simp only [List.cons.injEq, InputEvent.Received.injEq, and_true, true_and] at h
  have h2 := congrArg List.length h
  rw [List.length_append, List.length_replicate] at h2
  norm_num [READ_BUFFER_SIZE] at h2

/-- C5 (amended): on a stream read returning `Ok(n)` with `n > 0`,
`handle_readable` pushes exactly one `Received` event whose payload is the
full `READ_BUFFER_SIZE` buffer — the `n` bytes read followed by
`READ_BUFFER_SIZE − n` zero bytes (the read count is discarded and
`buffer.into()` converts the whole buffer). -/
theorem handle_readable_received_full_buffer (N : NetStreamImpl S) (stream stream1 : S)
    (events : List (InputEvent (TcpLocator Nat))) (data : List Nat)
    (hread : N.read stream READ_BUFFER_SIZE = (stream1, Except.ok data))
    (hne : data.length ≠ 0) (hlen : data.length ≤ READ_BUFFER_SIZE) :
    handle_readable N (TcpSocket.Stream stream) events
      = (TcpSocket.Stream stream1,
         events ++ [InputEvent.Received (TcpLocator.Connection (N.peer_addr stream1))
           (data ++ List.replicate (READ_BUFFER_SIZE - data.length) 0)],
         Except.ok 1)
    ∧ (data ++ List.replicate (READ_BUFFER_SIZE - data.length) 0).length
        = READ_BUFFER_SIZE := by
  constructor
  · simp [handle_readable, hread, hne, TcpSocket.addr]
  · rw [List.length_append, List.length_replicate]
    omega

/-- Witness for C5's amended theorem at the `b"PING"` read. -/
theorem handle_readable_received_full_buffer_witness :
    (handle_readable N_ping (TcpSocket.Stream ()) []
      = (TcpSocket.Stream (),
         [] ++ [InputEvent.Received (TcpLocator.Connection (N_ping.peer_addr ()))
           (([80, 73, 78, 71] : List Nat)
             ++ List.replicate (READ_BUFFER_SIZE - ([80, 73, 78, 71] : List Nat).length) 0)],
         Except.ok 1))
    ∧ (([80, 73, 78, 71] : List Nat)
        ++ List.replicate (READ_BUFFER_SIZE - ([80, 73, 78, 71] : List Nat).length) 0).length
        = READ_BUFFER_SIZE :=
  handle_readable_received_full_buffer N_ping () () [] [80, 73, 78, 71]
    rfl (by decide) (by decide)

/-- C10: the `io::Read`/`io::Write` impls for `TcpSocket` return the
`NotConnected` error kind on the `Listener` variant, leaving the socket
unchanged, and delegate to the underlying stream on the `Stream` variant —
byte-level reads and writes act on a stream only. -/
theorem listener_byte_io_not_connected (N : NetStreamImpl S) (a : Nat)
    (bufLen : Nat) (buf : List Nat) (s0 : S) :
    TcpSocket.read N (TcpSocket.Listener a) bufLen
      = (TcpSocket.Listener a, Except.error IOErrorKind.NotConnected)
    ∧ TcpSocket.write N (TcpSocket.Listener a) buf
      = (TcpSocket.Listener a, Except.error IOErrorKind.NotConnected)
    ∧ TcpSocket.flush N (TcpSocket.Listener a)
      = (TcpSocket.Listener a, Except.error IOErrorKind.NotConnected)
    ∧ TcpSocket.read N (TcpSocket.Stream s0) bufLen
      = (TcpSocket.Stream (N.read s0 bufLen).1, (N.read s0 bufLen).2)
    ∧ TcpSocket.write N (TcpSocket.Stream s0) buf
      = (TcpSocket.Stream (N.write s0 buf).1, (N.write s0 buf).2)
    ∧ TcpSocket.flush N (TcpSocket.Stream s0)
      = (TcpSocket.Stream (N.flush s0).1, (N.flush s0).2) :=
  ⟨rfl, rfl, rfl, rfl, rfl, rfl⟩

end Tcp
